import Mathlib

/-!
Verification of the real-time notification gateway core of the
masterbot-platform repository: the activity classifier, the client
reconnector hook (useWebSocket), the impulse store, and the credential
verifier, embedded shallowly in Lean 4.
-/

set_option maxHeartbeats 1000000

namespace Masterbot

/-! ## Activity classifier (miniapp_frontend utils/activityZone.ts) -/

/-- ActivityZone enumeration of the current revision of activityZone.ts. -/
inductive ActivityZone where
  | very_low
  | low
  | normal
  | high
  | extreme
deriving DecidableEq, Repr

/-- Embedding of `calculateActivityZone(current, median)` (latest revision):
`if (median === 0) return 'normal'; const ratio = current / median;
if (ratio < 0.25) return 'very_low'; if (ratio < 0.75) return 'low';
if (ratio <= 1.25) return 'normal'; if (ratio <= 2.0) return 'high';
return 'extreme'`. JS numbers are modelled as rationals. -/
def calculateActivityZone (current median : ℚ) : ActivityZone :=
  if median = 0 then .normal
  else
    let ratio := current / median
    if ratio < 1/4 then .very_low
    else if ratio < 3/4 then .low
    else if ratio ≤ 5/4 then .normal
    else if ratio ≤ 2 then .high
    else .extreme

/-- Modelled from the spec: the spec's Activity Classifier contract
`classify(current, baseline) -> (zone, ratio)` returns a pair, while the
only classifier present under src/ (`calculateActivityZone` in the
frontend) returns the zone alone; the gateway-side classifier source is
not under src/.  Per the spec: ratio is 1.0 when baseline is 0, else
current / baseline, and the zone is the source function's zone. -/
def classify (current baseline : ℚ) : ActivityZone × ℚ :=
  if baseline = 0 then (calculateActivityZone current baseline, 1)
  else (calculateActivityZone current baseline, current / baseline)

end Masterbot

namespace Masterbot

/-- C3: for every non-negative current, baseline 0 yields zone `normal`
from the source classifier, and the pair `(normal, 1.0)` from the
spec-level classifier contract. -/
theorem activityC3 (current : ℚ) (_h : 0 ≤ current) :
    calculateActivityZone current 0 = ActivityZone.normal ∧
    classify current 0 = (ActivityZone.normal, 1) := by
  constructor
  · simp [calculateActivityZone]
  · simp [classify, calculateActivityZone]

/-- Witness for C3 at current = 7. -/
theorem activityC3_witness :
    calculateActivityZone 7 0 = ActivityZone.normal ∧
    classify 7 0 = (ActivityZone.normal, 1) :=
  activityC3 7 (by norm_num)

/-- C4: for positive baseline the classifier computes ratio = current /
baseline and maps it by the boundaries [0, 1/4) → very_low, [1/4, 3/4) →
low, [3/4, 5/4] → normal, (5/4, 2] → high, (2, ∞) → extreme; and the five
concrete boundary scenarios of the spec hold. -/
theorem activityC4 (current baseline : ℚ) (_hc : 0 ≤ current) (hb : 0 < baseline) :
    (calculateActivityZone current baseline = .very_low ↔ current / baseline < 1/4) ∧
    (calculateActivityZone current baseline = .low ↔
      1/4 ≤ current / baseline ∧ current / baseline < 3/4) ∧
    (calculateActivityZone current baseline = .normal ↔
      3/4 ≤ current / baseline ∧ current / baseline ≤ 5/4) ∧
    (calculateActivityZone current baseline = .high ↔
      5/4 < current / baseline ∧ current / baseline ≤ 2) ∧
    (calculateActivityZone current baseline = .extreme ↔ 2 < current / baseline) ∧
    classify current baseline = (calculateActivityZone current baseline, current / baseline) ∧
    classify 24 100 = (.very_low, 24/100) ∧
    classify 25 100 = (.low, 25/100) ∧
    classify 125 100 = (.normal, 125/100) ∧
    classify 126 100 = (.high, 126/100) ∧
    classify 201 100 = (.extreme, 201/100) := by
  have hbne : baseline ≠ 0 := ne_of_gt hb
  have hchar :
      (calculateActivityZone current baseline = .very_low ↔ current / baseline < 1/4) ∧
      (calculateActivityZone current baseline = .low ↔
        1/4 ≤ current / baseline ∧ current / baseline < 3/4) ∧
      (calculateActivityZone current baseline = .normal ↔
        3/4 ≤ current / baseline ∧ current / baseline ≤ 5/4) ∧
      (calculateActivityZone current baseline = .high ↔
        5/4 < current / baseline ∧ current / baseline ≤ 2) ∧
      (calculateActivityZone current baseline = .extreme ↔ 2 < current / baseline) := by
    simp only [calculateActivityZone, if_neg hbne]
    split_ifs with h1 h2 h3 h4 <;>
      refine ⟨?_, ?_, ?_, ?_, ?_⟩ <;> simp_all <;>
        try first
          | linarith
          | (intro hx; linarith)
  refine ⟨hchar.1, hchar.2.1, hchar.2.2.1, hchar.2.2.2.1, hchar.2.2.2.2, ?_, ?_, ?_, ?_, ?_, ?_⟩
  · simp [classify, if_neg hbne]
  · norm_num [classify, calculateActivityZone]
  · norm_num [classify, calculateActivityZone]
  · norm_num [classify, calculateActivityZone]
  · norm_num [classify, calculateActivityZone]
  · norm_num [classify, calculateActivityZone]

/-- Witness for C4 at current = 126, baseline = 100. -/
theorem activityC4_witness :
    calculateActivityZone 126 100 = ActivityZone.high ∧
    classify 126 100 = (ActivityZone.high, 126/100) := by
  have h := activityC4 126 100 (by norm_num) (by norm_num)
  exact ⟨h.2.2.2.1.mpr (by norm_num), h.2.2.2.2.2.2.2.2.2.1⟩

end Masterbot

namespace Masterbot

/-! ## Client reconnector (useWebSocket hook, src/unnamed/part_015) -/

/-- WebSocket readyState values. -/
inductive ReadyState where
  | CONNECTING
  | OPEN
  | CLOSING
  | CLOSED
deriving DecidableEq, Repr

/-- The constant WS_RECONNECT_DELAY = 3000 (milliseconds). -/
def WS_RECONNECT_DELAY : Nat := 3000

/-- The constant WS_HEARTBEAT_INTERVAL = 30000 (milliseconds). -/
def WS_HEARTBEAT_INTERVAL : Nat := 30000

/-- A WebSocket CloseEvent: its numeric code and reason string. -/
structure CloseEvent where
  code : Nat
  reason : String
deriving DecidableEq, Repr

/-- State of one useWebSocket hook instance: the isConnected and error
React states, the readyState of the socket held by wsRef (if any), whether
the heartbeatRef interval is active, the delays of the reconnect setTimeout
calls made so far (most recent first), and a count of WebSocket
constructions. -/
structure HookState where
  isConnected : Bool
  error : Option String
  ws : Option ReadyState
  heartbeatActive : Bool
  reconnectTimers : List Nat
  socketsCreated : Nat
deriving DecidableEq, Repr

/-- The hook's initial state, before any connect. -/
def initialHookState : HookState :=
  { isConnected := false, error := none, ws := none,
    heartbeatActive := false, reconnectTimers := [], socketsCreated := 0 }

/-- Embedding of connect: if the current socket's readyState is OPEN it
returns at once; otherwise any existing socket is closed (replaced) and a
new WebSocket is constructed, starting in CONNECTING. -/
def connect (s : HookState) : HookState :=
  if s.ws = some ReadyState.OPEN then s
  else { s with ws := some ReadyState.CONNECTING,
                socketsCreated := s.socketsCreated + 1 }

/-- Embedding of the ws.onopen handler: sets isConnected, clears the
error, and starts the heartbeat interval; the socket is now OPEN. -/
def handleOpen (s : HookState) : HookState :=
  { s with isConnected := true, error := none, ws := some ReadyState.OPEN,
           heartbeatActive := true }

/-- Embedding of one tick of the heartbeat interval: the literal string
ping is sent exactly when the socket's readyState is OPEN; the result is
the frame sent, if any. -/
def heartbeatTick (rs : ReadyState) : Option String :=
  if rs = ReadyState.OPEN then some "ping" else none

/-- Embedding of the ws.onclose handler: clears isConnected and the
heartbeat interval; if the close code is neither 1000 nor 4001, schedules
one reconnect setTimeout with delay WS_RECONNECT_DELAY; if the code is
4001, sets the error state to the close reason (JavaScript falls back to
the string Authentication failed when the reason is empty). -/
def handleClose (s : HookState) (e : CloseEvent) : HookState :=
  let s1 := { s with isConnected := false, heartbeatActive := false,
                     ws := some ReadyState.CLOSED }
  if e.code ≠ 1000 ∧ e.code ≠ 4001 then
    { s1 with reconnectTimers := WS_RECONNECT_DELAY :: s1.reconnectTimers }
  else if e.code = 4001 then
    { s1 with error := some (if e.reason = "" then "Authentication failed" else e.reason) }
  else s1

/-- Processing a sequence of close events in order. -/
def runCloses (s : HookState) (es : List CloseEvent) : HookState :=
  es.foldl handleClose s

/-- Mount-effect guard of the hook: it connects on mount only in dev mode
or when initDataRaw is non-empty (the empty string is the only falsy
JavaScript string). -/
def mountConnects (devMode : Bool) (initDataRaw : String) : Bool :=
  if devMode = false ∧ initDataRaw = "" then false else true

/-- URL endpoint selected by connect: /ws/dev in dev mode, /ws otherwise. -/
def wsEndpoint (devMode : Bool) : String :=
  if devMode then "/ws/dev" else "/ws"

/-- Upper-case hexadecimal digit of a value below 16. -/
def uriHexDigit (n : Nat) : Char :=
  if n < 10 then Char.ofNat (48 + n) else Char.ofNat (55 + n)

/-- Bytes left unescaped by JavaScript's encodeURIComponent: the letters,
the digits, and minus, underscore, dot, bang, tilde, star, apostrophe and
the two parentheses. -/
def uriUnreserved (c : Nat) : Bool :=
  decide ((65 ≤ c ∧ c ≤ 90) ∨ (97 ≤ c ∧ c ≤ 122) ∨ (48 ≤ c ∧ c ≤ 57) ∨
    c = 45 ∨ c = 95 ∨ c = 46 ∨ c = 33 ∨ c = 126 ∨ c = 42 ∨ c = 39 ∨ c = 40 ∨ c = 41)

/-- Percent-encoding of a single UTF-8 byte. -/
def encodeByte (b : Nat) : String :=
  if uriUnreserved b then String.singleton (Char.ofNat b)
  else "%" ++ String.singleton (uriHexDigit (b / 16)) ++ String.singleton (uriHexDigit (b % 16))

/-- The UTF-8 bytes of one character, as natural numbers. -/
def utf8Bytes (c : Char) : List Nat :=
  let v := c.toNat
  if v < 128 then [v]
  else if v < 2048 then [192 + v / 64, 128 + v % 64]
  else if v < 65536 then [224 + v / 4096, 128 + (v / 64) % 64, 128 + v % 64]
  else [240 + v / 262144, 128 + (v / 4096) % 64, 128 + (v / 64) % 64, 128 + v % 64]

/-- JavaScript's encodeURIComponent over the string's UTF-8 bytes. -/
def encodeURIComponent (s : String) : String :=
  String.join (s.data.flatMap (fun c => (utf8Bytes c).map encodeByte))

/-- Query-parameter string built by connect: empty in dev mode, otherwise
the credential under the initData key. -/
def wsParams (devMode : Bool) (initDataRaw : String) : String :=
  if devMode then "" else "?initData=" ++ encodeURIComponent initDataRaw

/-- The connection URL built by connect. -/
def buildWsUrl (protocol host : String) (devMode : Bool) (initDataRaw : String) : String :=
  protocol ++ "//" ++ host ++ wsEndpoint devMode ++ wsParams devMode initDataRaw

/-- Helper: an abnormal close (code neither 1000 nor 4001) pushes exactly
one reconnect timer of delay WS_RECONNECT_DELAY. -/
theorem handleClose_timers_abnormal (s : HookState) (e : CloseEvent)
    (h1 : e.code ≠ 1000) (h2 : e.code ≠ 4001) :
    (handleClose s e).reconnectTimers = WS_RECONNECT_DELAY :: s.reconnectTimers := by
  simp [handleClose, h1, h2]

/-- Helper: a close with code 1000 or 4001 schedules no reconnect timer. -/
theorem handleClose_timers_normal (s : HookState) (e : CloseEvent)
    (h : e.code = 1000 ∨ e.code = 4001) :
    (handleClose s e).reconnectTimers = s.reconnectTimers := by
  rcases h with h | h <;> simp [handleClose, h]

end Masterbot

namespace Masterbot

/-- C1: on a close event with code 4001, no reconnect timer is scheduled
(the list of scheduled reconnect delays is unchanged) and the failure is
surfaced to the caller by setting the error state from the close reason
(the source falls back to the string Authentication failed when the close
reason is empty). -/
theorem wsC1 (s : HookState) (reason : String) :
    (handleClose s ⟨4001, reason⟩).reconnectTimers = s.reconnectTimers ∧
    (handleClose s ⟨4001, reason⟩).error =
      some (if reason = "" then "Authentication failed" else reason) := by
  constructor <;> simp [handleClose]

/-- C2: the reconnect delay constant is 3 seconds; every close whose code
is neither 1000 nor 4001 schedules exactly one reconnect timer with that
fixed delay; over any sequence of such closes one timer is scheduled per
close with no attempt cap; and a close with code 1000 or 4001 schedules
none. -/
theorem wsC2 (s : HookState) :
    WS_RECONNECT_DELAY = 3 * 1000 ∧
    (∀ e : CloseEvent, e.code ≠ 1000 → e.code ≠ 4001 →
      (handleClose s e).reconnectTimers = WS_RECONNECT_DELAY :: s.reconnectTimers) ∧
    (∀ es : List CloseEvent, (∀ e ∈ es, e.code ≠ 1000 ∧ e.code ≠ 4001) →
      (runCloses s es).reconnectTimers.length =
        s.reconnectTimers.length + es.length) ∧
    (∀ e : CloseEvent, e.code = 1000 ∨ e.code = 4001 →
      (handleClose s e).reconnectTimers = s.reconnectTimers) := by
  refine ⟨rfl, fun e h1 h2 => handleClose_timers_abnormal s e h1 h2, ?_, 
    fun e h => handleClose_timers_normal s e h⟩
  intro es
  induction es generalizing s with
  | nil => intro _; simp [runCloses]
  | cons e es ih =>
    intro hall
    have he := hall e (List.mem_cons_self e es)
    have hrest : ∀ e' ∈ es, e'.code ≠ 1000 ∧ e'.code ≠ 4001 :=
      fun e' h' => hall e' (List.mem_cons_of_mem e h')
    have hstep := handleClose_timers_abnormal s e he.1 he.2
    have : runCloses s (e :: es) = runCloses (handleClose s e) es := rfl
    rw [this, ih (handleClose s e) hrest, hstep]
    simp [List.length_cons]
    omega

/-- Witness for C2: from the initial state, the abnormal close code 1006
schedules exactly the one timer of 3000 milliseconds. -/
theorem wsC2_witness :
    (handleClose initialHookState ⟨1006, ""⟩).reconnectTimers = [3000] := by
  have h := (wsC2 initialHookState).2.1 ⟨1006, ""⟩ (by decide) (by decide)
  simpa [initialHookState, WS_RECONNECT_DELAY] using h

/-- C5: the heartbeat interval constant is 30 seconds; a heartbeat tick
sends the literal string ping exactly when the socket is OPEN and sends
nothing otherwise; and every close event stops the heartbeat interval. -/
theorem wsC5 :
    WS_HEARTBEAT_INTERVAL = 30 * 1000 ∧
    heartbeatTick ReadyState.OPEN = some "ping" ∧
    (∀ rs : ReadyState, rs ≠ ReadyState.OPEN → heartbeatTick rs = none) ∧
    (∀ (s : HookState) (e : CloseEvent), (handleClose s e).heartbeatActive = false) := by
  refine ⟨rfl, rfl, ?_, ?_⟩
  · intro rs h
    simp [heartbeatTick, h]
  · intro s e
    simp only [handleClose]
    split_ifs <;> rfl

/-- Witness for C5: no ping is sent on a CLOSED socket, and a normal close
from the open state stops the heartbeat. -/
theorem wsC5_witness :
    heartbeatTick ReadyState.CLOSED = none ∧
    (handleClose (handleOpen initialHookState) ⟨1000, ""⟩).heartbeatActive = false :=
  ⟨wsC5.2.2.1 ReadyState.CLOSED (by decide),
   wsC5.2.2.2 (handleOpen initialHookState) ⟨1000, ""⟩⟩

/-- C6: without dev mode and with an empty credential the hook never
connects on mount; in dev mode the URL uses the unauthenticated /ws/dev
path with no query parameter; otherwise it uses /ws with the credential in
the initData query parameter. -/
theorem wsC6 :
    mountConnects false "" = false ∧
    (∀ s : String, mountConnects true s = true) ∧
    (∀ s : String, s ≠ "" → mountConnects false s = true) ∧
    wsEndpoint true = "/ws/dev" ∧
    (∀ s : String, wsParams true s = "") ∧
    wsEndpoint false = "/ws" ∧
    (∀ s : String, wsParams false s = "?initData=" ++ encodeURIComponent s) ∧
    (∀ p h s : String, buildWsUrl p h true s = p ++ "//" ++ h ++ "/ws/dev") ∧
    (∀ p h s : String,
      buildWsUrl p h false s =
        p ++ "//" ++ h ++ "/ws" ++ ("?initData=" ++ encodeURIComponent s)) := by
  refine ⟨rfl, ?_, ?_, rfl, ?_, rfl, ?_, ?_, ?_⟩
  · intro s
    simp [mountConnects]
  · intro s h
    simp [mountConnects, h]
  · intro s
    rfl
  · intro s
    rfl
  · intro p h s
    simp [buildWsUrl, wsEndpoint, wsParams]
  · intro p h s
    rfl

/-- Witness for C6: with the credential abc and no dev mode, the hook
connects and targets /ws with the credential as the query parameter. -/
theorem wsC6_witness :
    mountConnects false "abc" = true ∧
    buildWsUrl "wss:" "example.com" false "abc" = "wss://example.com/ws?initData=abc" := by
  constructor
  · exact wsC6.2.2.1 "abc" (by decide)
  · have h := wsC6.2.2.2.2.2.2.2.2 "wss:" "example.com" "abc"
    rw [h]
    decide

/-- C10: calling connect while the held socket's readyState is OPEN leaves
the state unchanged: no new WebSocket is constructed, so one hook instance
holds at most one open connection at a time. -/
theorem wsC10 (s : HookState) (h : s.ws = some ReadyState.OPEN) :
    connect s = s ∧ (connect s).socketsCreated = s.socketsCreated := by
  constructor <;> simp [connect, h]

/-- Witness for C10: connecting right after onopen changes nothing. -/
theorem wsC10_witness :
    connect (handleOpen initialHookState) = handleOpen initialHookState :=
  (wsC10 (handleOpen initialHookState) (by rfl)).1

end Masterbot

namespace Masterbot

/-! ## Impulse store (miniapp_frontend/src/store/impulseStore.ts) -/

/-- Impulse event type: growth or fall. -/
inductive ImpulseType where
  | growth
  | fall
deriving DecidableEq, Repr

/-- An impulse signal; the fields the store logic reads. -/
structure Impulse where
  id : Nat
  symbol : String
  percent : ℚ
  type : ImpulseType
deriving DecidableEq, Repr

/-- Impulse statistics counters held by the store. -/
structure ImpulseStats where
  today_count : Nat
  growth_count : Nat
  fall_count : Nat
deriving DecidableEq, Repr

/-- The zustand store state: impulses (newest first), optional stats,
loading flag and error. -/
structure ImpulseState where
  impulses : List Impulse
  stats : Option ImpulseStats
  isLoading : Bool
  error : Option String
deriving DecidableEq, Repr

/-- The constant MAX_IMPULSES = 100. -/
def MAX_IMPULSES : Nat := 100

/-- The store's initial state. -/
def initialImpulseState : ImpulseState :=
  { impulses := [], stats := none, isLoading := false, error := none }

/-- Embedding of setImpulses: keeps the first MAX_IMPULSES entries
(Array.slice of JavaScript) and clears the loading flag. -/
def setImpulses (s : ImpulseState) (l : List Impulse) : ImpulseState :=
  { s with impulses := l.take MAX_IMPULSES, isLoading := false }

/-- Embedding of addImpulse: prepends the new impulse, keeps the first
MAX_IMPULSES entries, and bumps the stats counters when stats are set. -/
def addImpulse (s : ImpulseState) (i : Impulse) : ImpulseState :=
  { s with
    impulses := (i :: s.impulses).take MAX_IMPULSES,
    stats := s.stats.map (fun st =>
      { st with
        today_count := st.today_count + 1,
        growth_count := if i.type = ImpulseType.growth
          then st.growth_count + 1 else st.growth_count,
        fall_count := if i.type = ImpulseType.fall
          then st.fall_count + 1 else st.fall_count }) }

/-- States of the impulse store reachable from the initial state through
setImpulses and addImpulse. -/
inductive ReachableImpulse : ImpulseState → Prop where
  | init : ReachableImpulse initialImpulseState
  | set (s : ImpulseState) (l : List Impulse) :
      ReachableImpulse s → ReachableImpulse (setImpulses s l)
  | add (s : ImpulseState) (i : Impulse) :
      ReachableImpulse s → ReachableImpulse (addImpulse s i)

end Masterbot

namespace Masterbot

/-- C9: every reachable store state holds at most MAX_IMPULSES = 100
impulses; addImpulse prepends the new impulse as the newest entry and
keeps, in unchanged relative order, exactly the first MAX_IMPULSES - 1
previous entries, dropping the rest from the oldest end. -/
theorem impulseC9 :
    (∀ s : ImpulseState, ReachableImpulse s → s.impulses.length ≤ MAX_IMPULSES) ∧
    (∀ (s : ImpulseState) (i : Impulse),
      (addImpulse s i).impulses = i :: s.impulses.take (MAX_IMPULSES - 1)) := by
  constructor
  · intro s hs
    induction hs with
    | init => simp [initialImpulseState]
    | set s l _ => simp [setImpulses]
    | add s i _ => simp [addImpulse]
  · intro s i
    simp [addImpulse, MAX_IMPULSES, List.take_succ_cons]

/-- Witness for C9: the initial state is reachable and within the cap, and
adding one impulse to the empty store yields exactly that impulse. -/
theorem impulseC9_witness :
    initialImpulseState.impulses.length ≤ MAX_IMPULSES ∧
    (addImpulse initialImpulseState ⟨1, "BTCUSDT", 5, ImpulseType.growth⟩).impulses =
      [⟨1, "BTCUSDT", 5, ImpulseType.growth⟩] := by
  constructor
  · exact impulseC9.1 initialImpulseState ReachableImpulse.init
  · have h := impulseC9.2 initialImpulseState ⟨1, "BTCUSDT", 5, ImpulseType.growth⟩
    simpa [initialImpulseState] using h

end Masterbot

namespace Masterbot

/-! ## Credential verifier (spec section 4.1; src/miniapp_gateway/README.md) -/

/-- The verifier's error taxonomy. -/
inductive VerificationError where
  | MalformedCredential
  | SignatureMismatch
  | Expired
deriving DecidableEq, Repr

/-- Result of a successful verification: the embedded user id and the
credential's issuance time.  The admin flag of the spec's VerifiedIdentity
is determined outside the verification algorithm and is omitted here. -/
structure VerifiedIdentity where
  userId : Nat
  authDate : Nat
deriving DecidableEq, Repr

/-- Splits a character list at every occurrence of the separator. -/
def splitOnChar (sep : Char) : List Char → List (List Char)
  | [] => [[]]
  | c :: rest =>
    let r := splitOnChar sep rest
    if c = sep then [] :: r
    else
      match r with
      | [] => [[c]]
      | g :: gs => (c :: g) :: gs

/-- Splits one pair at its first equals sign: the key is everything before
it, the value everything after it (later equals signs stay in the value). -/
def splitKV (l : List Char) : String × String :=
  (String.mk (l.takeWhile (· != '=')),
   String.mk ((l.dropWhile (· != '=')).drop 1))

/-- Parses the raw credential as key=value pairs separated by ampersands;
fails when some pair carries no equals sign. -/
def parsePairs (raw : String) : Option (List (String × String)) :=
  let parts := splitOnChar '&' raw.data
  if parts.all (fun p => p.contains '=') then some (parts.map splitKV)
  else none

/-- The first value bound to the given key, if any. -/
def fieldValue (ps : List (String × String)) (k : String) : Option String :=
  (ps.filter (fun kv => kv.1 == k)).head?.map (fun kv => kv.2)

/-- Lexicographic order on character lists by code point. -/
def charListLe : List Char → List Char → Bool
  | [], _ => true
  | _ :: _, [] => false
  | a :: as, b :: bs =>
    if a.toNat < b.toNat then true
    else if b.toNat < a.toNat then false
    else charListLe as bs

/-- Inserts an element into a sorted list. -/
def insertSorted (le : α → α → Bool) (x : α) : List α → List α
  | [] => [x]
  | y :: ys => if le x y then x :: y :: ys else y :: insertSorted le x ys

/-- Insertion sort by the given order. -/
def sortPairs (le : α → α → Bool) : List α → List α
  | [] => []
  | x :: xs => insertSorted le x (sortPairs le xs)

/-- The pairs sorted lexicographically by key. -/
def sortByKey (ps : List (String × String)) : List (String × String) :=
  sortPairs (fun a b => charListLe a.1.data b.1.data) ps

/-- The data-check string: every field except hash, sorted by key,
rendered as key=value lines joined by newlines. -/
def dataCheckString (ps : List (String × String)) : String :=
  String.intercalate "\n"
    ((sortByKey (ps.filter (fun kv => kv.1 != "hash"))).map
      (fun kv => kv.1 ++ "=" ++ kv.2))

/-- Parses a non-empty all-digit string as a natural number. -/
def parseNat? (s : String) : Option Nat :=
  if s.data ≠ [] ∧ s.data.all Char.isDigit = true then
    some (s.data.foldl (fun n c => n * 10 + (c.toNat - 48)) 0)
  else none

/-- Drops characters up to and through the first occurrence of the given
pattern; none when the pattern never occurs. -/
def dropThrough (pat : List Char) : List Char → Option (List Char)
  | [] => none
  | c :: rest =>
    if (c :: rest).take pat.length = pat then some ((c :: rest).drop pat.length)
    else dropThrough pat rest

/-- Extracts the numeric id from the JSON-encoded user object by scanning
for the quoted id key and reading the digits after the colon. -/
def extractUserId (json : String) : Option Nat :=
  match dropThrough ("\"id\":".data) json.data with
  | none => none
  | some rest => parseNat? (String.mk (rest.takeWhile Char.isDigit))

/-- Modelled from the spec: the gateway's credential verifier (spec
section 4.1 and the validation steps in src/miniapp_gateway/README.md);
the gateway's Python source is not under src/, so the algorithm is taken
from those words.  The HMAC primitive is the parameter hmacFn, applied to
a key and a message.  Steps, in order: parse key=value pairs split on the
ampersand and extract the hash field, failing with MalformedCredential
when a pair has no equals sign or hash is absent; serialize the remaining
fields sorted by key as key=value lines joined by newlines; derive the
signing key as hmacFn of the literal WebAppData over the shared secret;
fail with SignatureMismatch when hmacFn of the serialized string under
that key differs from hash; fail with Expired when now - auth_date exceeds
maxAge, with MalformedCredential when auth_date is missing or non-numeric;
finally extract the numeric user id, with MalformedCredential when it is
absent. -/
def verify (hmacFn : String → String → String) (raw sharedSecret : String)
    (now maxAge : Nat) : Except VerificationError VerifiedIdentity :=
  match parsePairs raw with
  | none => .error .MalformedCredential
  | some ps =>
    match fieldValue ps "hash" with
    | none => .error .MalformedCredential
    | some hashVal =>
      let secretKey := hmacFn "WebAppData" sharedSecret
      let computed := hmacFn secretKey (dataCheckString ps)
      if computed ≠ hashVal then .error .SignatureMismatch
      else
        match fieldValue ps "auth_date" with
        | none => .error .MalformedCredential
        | some ad =>
          match parseNat? ad with
          | none => .error .MalformedCredential
          | some authDate =>
            if maxAge < now - authDate then .error .Expired
            else
              match fieldValue ps "user" with
              | none => .error .MalformedCredential
              | some u =>
                match extractUserId u with
                | none => .error .MalformedCredential
                | some uid => .ok ⟨uid, authDate⟩

/-- A concrete stand-in HMAC used only to instantiate witnesses. -/
def toyHmac (key msg : String) : String :=
  "h(" ++ key ++ "," ++ msg ++ ")"

end Masterbot

namespace Masterbot

/-- C7: whenever the credential parses with an embedded hash field and the
HMAC recomputed over the lexicographically sorted key=value lines, keyed
by hmacFn of the literal WebAppData over the shared secret, differs from
that hash, verify fails with SignatureMismatch — for every clock value and
freshness window, hence for every alteration of a field after signing that
changes the recomputed HMAC. -/
theorem verifyC7 (hmacFn : String → String → String) (raw sharedSecret : String)
    (now maxAge : Nat) (ps : List (String × String)) (hv : String)
    (hparse : parsePairs raw = some ps)
    (hhash : fieldValue ps "hash" = some hv)
    (hmism : hmacFn (hmacFn "WebAppData" sharedSecret) (dataCheckString ps) ≠ hv) :
    verify hmacFn raw sharedSecret now maxAge = .error .SignatureMismatch := by
  simp [verify, hparse, hhash, hmism]

/-- Witness for C7: a credential whose embedded hash does not match the
recomputed value is rejected with SignatureMismatch. -/
theorem verifyC7_witness :
    verify toyHmac "auth_date=100&user=x&hash=nope" "s" 1000 86400
      = .error .SignatureMismatch := by
  apply verifyC7 toyHmac "auth_date=100&user=x&hash=nope" "s" 1000 86400
    [("auth_date", "100"), ("user", "x"), ("hash", "nope")] "nope"
  · rfl
  · rfl
  · intro h
    exact absurd h (by decide)

/-- C8 counterexample: the claim says an over-age credential fails with
Expired independent of signature validity, but the algorithm (spec section
4.1 and the README) checks the signature before freshness: this concrete
credential is far older than the 24-hour window, yet verify returns
SignatureMismatch, not Expired, because its hash is also wrong. -/
theorem verifyC8_counterexample :
    86400 < 1000000 - 100 ∧
    verify toyHmac "auth_date=100&hash=bad" "s" 1000000 86400
      = .error .SignatureMismatch ∧
    verify toyHmac "auth_date=100&hash=bad" "s" 1000000 86400
      ≠ .error .Expired := by
  refine ⟨by norm_num, by rfl, ?_⟩
  intro h
  rw [show verify toyHmac "auth_date=100&hash=bad" "s" 1000000 86400
      = Except.error VerificationError.SignatureMismatch from rfl] at h
  exact absurd (Except.error.inj h) (by decide)

/-- C8 amended: for every credential that parses with an embedded hash,
whose signature verifies, and whose auth_date is older than the freshness
window (now - auth_date > maxAge), verify fails with Expired. -/
theorem verifyC8_amended (hmacFn : String → String → String)
    (raw sharedSecret : String) (now maxAge : Nat)
    (ps : List (String × String)) (hv ad : String) (a : Nat)
    (hparse : parsePairs raw = some ps)
    (hhash : fieldValue ps "hash" = some hv)
    (hsig : hmacFn (hmacFn "WebAppData" sharedSecret) (dataCheckString ps) = hv)
    (had : fieldValue ps "auth_date" = some ad)
    (hadn : parseNat? ad = some a)
    (hexp : maxAge < now - a) :
    verify hmacFn raw sharedSecret now maxAge = .error .Expired := by
  simp [verify, hparse, hhash, hsig, had, hadn, hexp]

/-- Witness for the amended C8: a correctly signed credential whose
auth_date of 100 is far older than the 24-hour window at clock 1000000 is
rejected with Expired. -/
theorem verifyC8_amended_witness :
    verify toyHmac "auth_date=100&hash=h(h(WebAppData,s),auth_date=100)" "s" 1000000 86400
      = .error .Expired := by
  apply verifyC8_amended toyHmac
    "auth_date=100&hash=h(h(WebAppData,s),auth_date=100)" "s" 1000000 86400
    [("auth_date", "100"), ("hash", "h(h(WebAppData,s),auth_date=100)")]
    "h(h(WebAppData,s),auth_date=100)" "100" 100
  · rfl
  · rfl
  · rfl
  · rfl
  · rfl
  · norm_num

end Masterbot

namespace Masterbot

/-- Witness for C1: closing with 4001 and reason bad token from the open
state schedules no reconnect and surfaces the reason as the error. -/
theorem wsC1_witness :
    (handleClose (handleOpen initialHookState) ⟨4001, "bad token"⟩).reconnectTimers = [] ∧
    (handleClose (handleOpen initialHookState) ⟨4001, "bad token"⟩).error = some "bad token" := by
  have h := wsC1 (handleOpen initialHookState) "bad token"
  exact ⟨h.1, by rw [h.2]; rfl⟩

end Masterbot
